import Mathlib

/-!
# Verification of the SerialHeap controller (hotspot/share/gc/serial/serialHeap.cpp)

A shallow embedding of the generational heap controller from
`src/hotspot/share/gc/serial/serialHeap.cpp`, together with theorems settling
the frozen claims about it.  Pure wiring (constructor, serviceability pool
construction, accessor lists) is translated directly from the C++ source.
Collaborator code that lives outside that file (GenerationPool internals,
TenuredGeneration allocation, GCLocker, SuspendibleThreadSet, the shared
process_roots walker) is modelled from the specification; each such
definition carries a doc comment saying so.
-/

namespace SerialGC

/-- A word-addressed memory region `[start, start + wordSize)`.  Embeds
HotSpot's `MemRegion` (memRegion.hpp, outside src/): a start address plus a
word size. -/
structure MemRegion where
  start : Nat
  wordSize : Nat
deriving DecidableEq, Repr

/-- One-past-the-end address of a region (C++ `MemRegion::end()`). -/
def MemRegion.limit (r : MemRegion) : Nat := r.start + r.wordSize

/-- Modelled from the spec: `MemRegion::contains(MemRegion)` (memRegion.hpp,
outside src/) holds when the argument region lies fully within `r`. -/
def MemRegion.contains (r o : MemRegion) : Bool :=
  decide (r.start ≤ o.start) && decide (o.limit ≤ r.limit)

/-- Which kind of space a memory pool views: the three concrete pool classes
`ContiguousSpacePool` (eden), `SurvivorContiguousSpacePool` and
`GenerationPool` from genMemoryPools.hpp, collapsed to a tag. -/
inductive PoolKind
  | edenKind
  | survivorKind
  | tenuredKind
deriving DecidableEq, Repr

/-- A memory pool as constructed in `SerialHeap::initialize_serviceability`:
its name, maximum size and usage-threshold-support flag are fixed by the
constructor arguments at the call site; the kind records which space the
pool holds a non-owning reference to. -/
structure MemoryPool where
  name : String
  maxSize : Nat
  supportUsageThreshold : Bool
  kind : PoolKind
deriving DecidableEq, Repr

/-- A GC memory manager (services/memoryManager.hpp): a name, the
human-readable GC end message passed at construction, and the ordered list
of attached pools.  Pools are stored as addresses (indices into the heap's
pool store) so that sharing of pool instances between managers is
observable. -/
structure GCMemoryManager where
  name : String
  gcEndMessage : String
  pools : List Nat
deriving DecidableEq, Repr

/-- `GCMemoryManager::add_pool`: appends a pool reference to the manager's
ordered pool list. -/
def GCMemoryManager.add_pool (m : GCMemoryManager) (a : Nat) : GCMemoryManager :=
  { m with pools := m.pools ++ [a] }

/-- The young generation (`DefNewGeneration`) state visible to this file:
the maximum eden and survivor sizes consumed by
`SerialHeap::initialize_serviceability`, live usage counters read on demand
by the pools, and the GC manager installed by `set_gc_manager`. -/
structure DefNewGeneration where
  maxEdenSize : Nat
  maxSurvivorSize : Nat
  edenUsed : Nat
  survivorUsed : Nat
  gcManager : Option GCMemoryManager
deriving DecidableEq, Repr

/-- The old generation (`TenuredGeneration`) state visible to this file:
a contiguously used extent `[base, base + usedWords)` inside a committed
capacity, the recorded old-to-young cross-generation reference slots
(remembered set), the regions marked permanently occupied by the archive
loader, and the GC manager installed by `set_gc_manager`. -/
structure TenuredGeneration where
  base : Nat
  capacityWords : Nat
  maxCapacityWords : Nat
  usedWords : Nat
  crossGenEntries : List Nat
  archiveRegions : List MemRegion
  gcManager : Option GCMemoryManager
deriving DecidableEq, Repr

/-- `TenuredGeneration::used_region()`: the currently-used extent of the old
generation. -/
def TenuredGeneration.used_region (g : TenuredGeneration) : MemRegion :=
  ⟨g.base, g.usedWords⟩

/-- Modelled from the spec: `TenuredGeneration::allocate`
(tenuredGeneration.inline.hpp, outside src/).  Allocates `wordSize` words
from the old generation's contiguous free space, returning the address and
the updated generation, or `none` (a null address) exactly when the old
generation lacks contiguous free space of the requested size. -/
def TenuredGeneration.allocate (g : TenuredGeneration) (wordSize : Nat) :
    Option Nat × TenuredGeneration :=
  if g.usedWords + wordSize ≤ g.capacityWords then
    (some (g.base + g.usedWords), { g with usedWords := g.usedWords + wordSize })
  else
    (none, g)

/-- Modelled from the spec: `TenuredGeneration::complete_loaded_archive_space`
(outside src/) informs the old generation's allocator that the region is
permanently occupied and treated as already-live. -/
def TenuredGeneration.mark_archive (g : TenuredGeneration) (r : MemRegion) :
    TenuredGeneration :=
  { g with archiveRegions := g.archiveRegions ++ [r] }

/-- The SerialHeap state: the two generations it owns, the pool store
(pool objects indexed by address), the three pool reference fields
(`nullptr` before the deferred initialization phase), and the two manager
groups created at construction. -/
structure SerialHeapState where
  youngGen : DefNewGeneration
  oldGen : TenuredGeneration
  poolStore : List MemoryPool
  edenPool : Option Nat
  survivorPool : Option Nat
  oldPool : Option Nat
  youngManager : GCMemoryManager
  oldManager : GCMemoryManager
deriving DecidableEq, Repr

/-- `SerialHeap::SerialHeap()`: the constructor nulls the three pool fields
and creates the two manager groups with their fixed names and trigger
descriptions — "Copy" / "end of minor GC" for the young manager and
"MarkSweepCompact" / "end of major GC" for the old manager. -/
def SerialHeap.construct (young : DefNewGeneration) (old : TenuredGeneration) :
    SerialHeapState :=
  { youngGen := young
    oldGen := old
    poolStore := []
    edenPool := none
    survivorPool := none
    oldPool := none
    youngManager := ⟨"Copy", "end of minor GC", []⟩
    oldManager := ⟨"MarkSweepCompact", "end of major GC", []⟩ }

/-- `SerialHeap::initialize_serviceability()` (the name is shortened here):
the deferred initialization phase.  Builds the eden pool
(`ContiguousSpacePool(young->eden(), "Eden Space", young->max_eden_size(),
false)`), the survivor pool (`SurvivorContiguousSpacePool(young, "Survivor
Space", young->max_survivor_size(), false)`) and the tenured pool
(`GenerationPool(old, "Tenured Gen", true)`), then wires the young manager
with {eden, survivor} and the old manager with {eden, survivor, old}, in
that order, and installs each manager on its generation via
`set_gc_manager`.  Fresh pool objects are appended to the pool store and the
managers receive the resulting addresses, so the young and old managers
share the very same eden and survivor pool instances. -/
def SerialHeap.init_serviceability (s : SerialHeapState) : SerialHeapState :=
  let young := s.youngGen
  let edenAddr := s.poolStore.length
  let survivorAddr := s.poolStore.length + 1
  let oldAddr := s.poolStore.length + 2
  let store := s.poolStore ++
    [⟨"Eden Space", young.maxEdenSize, false, PoolKind.edenKind⟩,
     ⟨"Survivor Space", young.maxSurvivorSize, false, PoolKind.survivorKind⟩,
     ⟨"Tenured Gen", s.oldGen.maxCapacityWords, true, PoolKind.tenuredKind⟩]
  let ym := (s.youngManager.add_pool edenAddr).add_pool survivorAddr
  let om := ((s.oldManager.add_pool edenAddr).add_pool survivorAddr).add_pool oldAddr
  { s with
    poolStore := store
    edenPool := some edenAddr
    survivorPool := some survivorAddr
    oldPool := some oldAddr
    youngManager := ym
    oldManager := om
    youngGen := { young with gcManager := some ym }
    oldGen := { s.oldGen with gcManager := some om } }

/-- `SerialHeap::memory_managers()`: a two-element array holding the young
manager then the old manager. -/
def SerialHeap.memory_managers (s : SerialHeapState) : List GCMemoryManager :=
  [s.youngManager, s.oldManager]

/-- `SerialHeap::memory_pools()`: a three-element array holding the eden,
survivor and old pool references in that order. -/
def SerialHeap.memory_pools (s : SerialHeapState) : List (Option Nat) :=
  [s.edenPool, s.survivorPool, s.oldPool]

/-- Modelled from the spec: each pool's used bytes are computed on demand
from the referenced generation space (genMemoryPools.cpp, outside src/),
never cached. -/
def pool_used (s : SerialHeapState) : PoolKind → Nat
  | PoolKind.edenKind => s.youngGen.edenUsed
  | PoolKind.survivorKind => s.youngGen.survivorUsed
  | PoolKind.tenuredKind => s.oldGen.usedWords

/-- The (used, max) report for the pool stored at address `a`, or `none`
when no pool lives there. -/
def pool_report (s : SerialHeapState) (a : Nat) : Option (Nat × Nat) :=
  (s.poolStore.get? a).map fun p => (pool_used s p.kind, p.maxSize)

/-! ## Minor-collection root scanning (`SerialHeap::young_process_roots`) -/

/-- The closures threaded through `young_process_roots`: the young root
closure, the old-generation closure, and the class-loader-data closure. -/
inductive ClosureId
  | rootClosure
  | oldGenClosure
  | cldClosure
deriving DecidableEq, Repr

/-- One visit performed during a root scan: a thread-stack root, a
class-loader-data root, a compiled-code (code blob) root together with the
relocation-fix-up flag of the wrapping `MarkingCodeBlobClosure`, or the
application of a closure to one recorded old-to-young cross-generation
reference slot. -/
inductive RootScanEvent
  | threadRoot (c : ClosureId) (r : Nat)
  | cldRoot (c : ClosureId) (r : Nat)
  | codeBlobRoot (c : ClosureId) (fixRelocations : Bool) (r : Nat)
  | oldToYoungEntry (c : ClosureId) (slot : Nat)
deriving DecidableEq, Repr

/-- The closure an event applies. -/
def RootScanEvent.closureOf : RootScanEvent → ClosureId
  | RootScanEvent.threadRoot c _ => c
  | RootScanEvent.cldRoot c _ => c
  | RootScanEvent.codeBlobRoot c _ _ => c
  | RootScanEvent.oldToYoungEntry c _ => c

/-- Whether an event is the old-generation visitor acting on a recorded
cross-generation entry. -/
def RootScanEvent.isOldToYoung : RootScanEvent → Bool
  | RootScanEvent.oldToYoungEntry _ _ => true
  | _ => false

/-- The transient root set of one minor collection: thread execution
contexts, class-loader-data nodes, and compiled-code reference slots. -/
structure RootSet where
  threadRoots : List Nat
  cldRoots : List Nat
  codeBlobRoots : List Nat
deriving DecidableEq, Repr

/-- Modelled from the spec: `GenCollectedHeap::process_roots` (outside
src/) synchronously enumerates every thread root with the strong closure,
every class-loader-data root with the CLD closure, and every compiled-code
root with the code-blob closure (carrying its fix-relocations flag),
completing before it returns.  The scan-option argument
(`SO_ScavengeCodeCache`) selects the code cache subset and is not modelled
beyond the code-blob root list. -/
def process_roots (rs : RootSet) (strong : ClosureId) (cld : ClosureId)
    (codeClosure : ClosureId) (fixRelocations : Bool) : List RootScanEvent :=
  rs.threadRoots.map (RootScanEvent.threadRoot strong) ++
    rs.cldRoots.map (RootScanEvent.cldRoot cld) ++
    rs.codeBlobRoots.map (RootScanEvent.codeBlobRoot codeClosure fixRelocations)

/-- Modelled from the spec: `TenuredGeneration::younger_refs_iterate`
(outside src/) applies the given closure only to the old generation's
recorded old-to-young cross-generation reference entries, never to the
whole old generation. -/
def TenuredGeneration.younger_refs_iterate (g : TenuredGeneration)
    (c : ClosureId) : List RootScanEvent :=
  g.crossGenEntries.map (RootScanEvent.oldToYoungEntry c)

/-- `SerialHeap::young_process_roots(root_closure, old_gen_closure,
cld_closure)`: wraps the root closure in a `MarkingCodeBlobClosure` with
`CodeBlobToOopClosure::FixRelocations`, calls `process_roots` with the root
closure for threads, the CLD closure for class-loader data and the marking
code-blob closure for compiled code, and afterwards calls
`old_gen()->younger_refs_iterate(old_gen_closure)`.  The result is the
trace of visits in program order. -/
def SerialHeap.young_process_roots (s : SerialHeapState) (rs : RootSet) :
    List RootScanEvent :=
  process_roots rs ClosureId.rootClosure ClosureId.cldClosure
      ClosureId.rootClosure true ++
    s.oldGen.younger_refs_iterate ClosureId.oldGenClosure

/-! ## Safepoint synchronization (`safepoint_synchronize_begin` / `_end`) -/

/-- Modelled from the spec: the state of the suspendible-thread-set
machinery (suspendibleThreadSet.hpp, outside src/) coordinating the
optional concurrent auxiliary worker — whether the worker is currently
parked for a pause. -/
structure SuspendibleThreadSetState where
  suspended : Bool
deriving DecidableEq, Repr

/-- Modelled from the spec: `SuspendibleThreadSet::synchronize()` blocks
until the auxiliary worker reaches a safe yield point and parks it. -/
def SuspendibleThreadSet.synchronize (s : SuspendibleThreadSetState) :
    SuspendibleThreadSetState :=
  { s with suspended := true }

/-- Modelled from the spec: `SuspendibleThreadSet::desynchronize()`
releases the parked auxiliary worker. -/
def SuspendibleThreadSet.desynchronize (s : SuspendibleThreadSetState) :
    SuspendibleThreadSetState :=
  { s with suspended := false }

/-- `SerialHeap::safepoint_synchronize_begin()`: when the
`UseStringDeduplication` flag is set, performs the suspend handshake;
otherwise does nothing. -/
def SerialHeap.safepoint_synchronize_begin (useStringDeduplication : Bool)
    (s : SuspendibleThreadSetState) : SuspendibleThreadSetState :=
  if useStringDeduplication then SuspendibleThreadSet.synchronize s else s

/-- `SerialHeap::safepoint_synchronize_end()`: when the
`UseStringDeduplication` flag is set, releases the worker; otherwise does
nothing. -/
def SerialHeap.safepoint_synchronize_end (useStringDeduplication : Bool)
    (s : SuspendibleThreadSetState) : SuspendibleThreadSetState :=
  if useStringDeduplication then SuspendibleThreadSet.desynchronize s else s

/-! ## Archive interface (`allocate_loaded_archive_space` /
`complete_loaded_archive_space`) -/

/-- The fatal error taxonomy relevant to the archive interface. -/
inductive GCError
  | archiveRegionViolation
deriving DecidableEq, Repr

/-- Lock events surrounding heap mutation, to make lock discipline
observable in traces. -/
inductive HeapEvent
  | acquire_heap_lock
  | old_gen_allocate (wordSize : Nat)
  | release_heap_lock
deriving DecidableEq, Repr

/-- `SerialHeap::allocate_loaded_archive_space(word_size)`: takes the
heap-wide `Heap_lock` (`MutexLocker ml(Heap_lock)`), allocates from the old
generation (`old_gen()->allocate(word_size, false)`), and releases the lock
when the locker goes out of scope.  Returns the address (or `none` for a
null address), the updated heap state, and the lock/allocation event trace
in program order. -/
def SerialHeap.allocate_loaded_archive_space (s : SerialHeapState)
    (wordSize : Nat) : Option Nat × SerialHeapState × List HeapEvent :=
  let r := s.oldGen.allocate wordSize
  (r.1, { s with oldGen := r.2 },
    [HeapEvent.acquire_heap_lock, HeapEvent.old_gen_allocate wordSize,
     HeapEvent.release_heap_lock])

/-- `SerialHeap::complete_loaded_archive_space(archive_space)`: asserts
that the region is contained in the old generation's used region (the
assert is fatal — "Archive space not contained in old gen"), then calls
`old_gen()->complete_loaded_archive_space(archive_space)`.  On violation
the heap state is returned unchanged alongside the fatal error. -/
def SerialHeap.complete_loaded_archive_space (s : SerialHeapState)
    (r : MemRegion) : Option GCError × SerialHeapState :=
  if s.oldGen.used_region.contains r then
    (none, { s with oldGen := s.oldGen.mark_archive r })
  else
    (some GCError.archiveRegionViolation, s)

/-! ## Object pinning (`pin_object` / `unpin_object`) -/

/-- Modelled from the spec: the GCLocker state (gcLocker.inline.hpp,
outside src/) — the global critical-section counter and whether a
collection pause is in progress. -/
structure GCLockerState where
  criticalCount : Nat
  gcActive : Bool
deriving DecidableEq, Repr

/-- The operations on the GCLocker gate: entering and leaving a critical
section, and starting and finishing a collection pause. -/
inductive GCLockerOp
  | lock_critical
  | unlock_critical
  | start_collection
  | finish_collection
deriving DecidableEq, Repr

/-- Modelled from the spec: the GCLocker transition relation.  `none` means
the operation cannot proceed in the given state (a blocked caller, or a
pause that may not start).  `lock_critical` blocks while a collection is in
progress, otherwise increments the counter; `unlock_critical` decrements
it; `start_collection` is enabled only when the counter is zero and no
pause is active; `finish_collection` ends an active pause. -/
def GCLockerStep (s : GCLockerState) : GCLockerOp → Option GCLockerState
  | GCLockerOp.lock_critical =>
      if s.gcActive then none
      else some { s with criticalCount := s.criticalCount + 1 }
  | GCLockerOp.unlock_critical =>
      if s.criticalCount = 0 then none
      else some { s with criticalCount := s.criticalCount - 1 }
  | GCLockerOp.start_collection =>
      if s.criticalCount = 0 ∧ s.gcActive = false then
        some { s with gcActive := true }
      else none
  | GCLockerOp.finish_collection =>
      if s.gcActive then some { s with gcActive := false } else none

/-- `SerialHeap::pin_object(thread, obj)`: delegates to
`GCLocker::lock_critical(thread)`; the object argument is not used. -/
def SerialHeap.pin_object (thread : Nat) (obj : Nat) (g : GCLockerState) :
    Option GCLockerState :=
  GCLockerStep g GCLockerOp.lock_critical

/-- `SerialHeap::unpin_object(thread, obj)`: delegates to
`GCLocker::unlock_critical(thread)`; the object argument is not used. -/
def SerialHeap.unpin_object (thread : Nat) (obj : Nat) (g : GCLockerState) :
    Option GCLockerState :=
  GCLockerStep g GCLockerOp.unlock_critical

/-! ## Concrete sample states used by witnesses -/

/-- A concrete young generation for witness evaluation. -/
def sampleYoung : DefNewGeneration :=
  ⟨512, 64, 100, 10, none⟩

/-- A concrete old generation for witness evaluation: used extent
`[1000, 1040)` of capacity 200, with one recorded cross-generation entry. -/
def sampleOld : TenuredGeneration :=
  ⟨1000, 200, 4096, 40, [5], [], none⟩

/-- A concrete fully initialized heap for witness evaluation. -/
def sampleHeap : SerialHeapState :=
  SerialHeap.init_serviceability (SerialHeap.construct sampleYoung sampleOld)

/-- A concrete root set for witness evaluation. -/
def sampleRoots : RootSet :=
  ⟨[11, 12], [21], [31]⟩

/-! ## Claim theorems -/

/-- C1: after the deferred initialization phase has run, the young manager
owns exactly the pools {eden, survivor} in that order, the old manager owns
exactly {eden, survivor, old} in that order, `memory_managers` returns
exactly [young, old], and `memory_pools` returns exactly
[eden, survivor, old]. -/
theorem serviceability_wiring (young : DefNewGeneration)
    (old : TenuredGeneration) :
    ∃ e sv o,
      (SerialHeap.init_serviceability
          (SerialHeap.construct young old)).edenPool = some e ∧
      (SerialHeap.init_serviceability
          (SerialHeap.construct young old)).survivorPool = some sv ∧
      (SerialHeap.init_serviceability
          (SerialHeap.construct young old)).oldPool = some o ∧
      (SerialHeap.init_serviceability
          (SerialHeap.construct young old)).youngManager.pools = [e, sv] ∧
      (SerialHeap.init_serviceability
          (SerialHeap.construct young old)).oldManager.pools = [e, sv, o] ∧
      SerialHeap.memory_managers
          (SerialHeap.init_serviceability (SerialHeap.construct young old)) =
        [(SerialHeap.init_serviceability
            (SerialHeap.construct young old)).youngManager,
         (SerialHeap.init_serviceability
            (SerialHeap.construct young old)).oldManager] ∧
      SerialHeap.memory_pools
          (SerialHeap.init_serviceability (SerialHeap.construct young old)) =
        [some e, some sv, some o] :=
  ⟨0, 1, 2, rfl, rfl, rfl, rfl, rfl, rfl, rfl⟩

/-- C6: the usage-threshold-support flag of every pool is fixed at pool
construction — false for the eden and survivor pools, true for the tenured
pool. -/
theorem pool_threshold_flags (young : DefNewGeneration)
    (old : TenuredGeneration) :
    (Option.bind
        (SerialHeap.init_serviceability
          (SerialHeap.construct young old)).edenPool
        (SerialHeap.init_serviceability
          (SerialHeap.construct young old)).poolStore.get?).map
      MemoryPool.supportUsageThreshold = some false ∧
    (Option.bind
        (SerialHeap.init_serviceability
          (SerialHeap.construct young old)).survivorPool
        (SerialHeap.init_serviceability
          (SerialHeap.construct young old)).poolStore.get?).map
      MemoryPool.supportUsageThreshold = some false ∧
    (Option.bind
        (SerialHeap.init_serviceability
          (SerialHeap.construct young old)).oldPool
        (SerialHeap.init_serviceability
          (SerialHeap.construct young old)).poolStore.get?).map
      MemoryPool.supportUsageThreshold = some true :=
  ⟨rfl, rfl, rfl⟩

/-- C8: from construction onward the young manager is named "Copy" with
trigger description "end of minor GC" and the old manager is named
"MarkSweepCompact" with trigger description "end of major GC"; the
deferred initialization phase preserves them. -/
theorem manager_names (young : DefNewGeneration) (old : TenuredGeneration) :
    (SerialHeap.construct young old).youngManager.name = "Copy" ∧
    (SerialHeap.construct young old).youngManager.gcEndMessage =
      "end of minor GC" ∧
    (SerialHeap.construct young old).oldManager.name = "MarkSweepCompact" ∧
    (SerialHeap.construct young old).oldManager.gcEndMessage =
      "end of major GC" ∧
    (SerialHeap.init_serviceability
        (SerialHeap.construct young old)).youngManager.name = "Copy" ∧
    (SerialHeap.init_serviceability
        (SerialHeap.construct young old)).youngManager.gcEndMessage =
      "end of minor GC" ∧
    (SerialHeap.init_serviceability
        (SerialHeap.construct young old)).oldManager.name =
      "MarkSweepCompact" ∧
    (SerialHeap.init_serviceability
        (SerialHeap.construct young old)).oldManager.gcEndMessage =
      "end of major GC" :=
  ⟨rfl, rfl, rfl, rfl, rfl, rfl, rfl, rfl⟩

/-- C9: `pin_object` and `unpin_object` ignore their object argument — for
every thread, GCLocker state and any two objects, pinning (resp. unpinning)
with either object yields exactly the same result. -/
theorem pin_ignores_object (thread o1 o2 : Nat) (g : GCLockerState) :
    SerialHeap.pin_object thread o1 g = SerialHeap.pin_object thread o2 g ∧
    SerialHeap.unpin_object thread o1 g = SerialHeap.unpin_object thread o2 g :=
  ⟨rfl, rfl⟩

/-- C10: the eden and survivor pool references attached to the young
manager are the very same pool-store addresses attached to the old manager,
so both managers yield identical on-demand pool reports for eden and
survivor at every observation point. -/
theorem shared_young_pool_instances (young : DefNewGeneration)
    (old : TenuredGeneration) :
    (SerialHeap.init_serviceability
        (SerialHeap.construct young old)).youngManager.pools.get? 0 =
      (SerialHeap.init_serviceability
        (SerialHeap.construct young old)).oldManager.pools.get? 0 ∧
    (SerialHeap.init_serviceability
        (SerialHeap.construct young old)).youngManager.pools.get? 1 =
      (SerialHeap.init_serviceability
        (SerialHeap.construct young old)).oldManager.pools.get? 1 ∧
    Option.bind
        ((SerialHeap.init_serviceability
            (SerialHeap.construct young old)).youngManager.pools.get? 0)
        (pool_report
          (SerialHeap.init_serviceability (SerialHeap.construct young old))) =
      Option.bind
        ((SerialHeap.init_serviceability
            (SerialHeap.construct young old)).oldManager.pools.get? 0)
        (pool_report
          (SerialHeap.init_serviceability (SerialHeap.construct young old))) ∧
    Option.bind
        ((SerialHeap.init_serviceability
            (SerialHeap.construct young old)).youngManager.pools.get? 1)
        (pool_report
          (SerialHeap.init_serviceability (SerialHeap.construct young old))) =
      Option.bind
        ((SerialHeap.init_serviceability
            (SerialHeap.construct young old)).oldManager.pools.get? 1)
        (pool_report
          (SerialHeap.init_serviceability (SerialHeap.construct young old))) :=
  ⟨rfl, rfl, rfl, rfl⟩

/-- C3: when string deduplication is disabled both safepoint
synchronization calls are identity no-ops; when enabled,
`safepoint_synchronize_begin` performs the suspend handshake and
`safepoint_synchronize_end` performs the release. -/
theorem safepoint_sync_gate (s : SuspendibleThreadSetState) :
    SerialHeap.safepoint_synchronize_begin false s = s ∧
    SerialHeap.safepoint_synchronize_end false s = s ∧
    SerialHeap.safepoint_synchronize_begin true s =
      SuspendibleThreadSet.synchronize s ∧
    SerialHeap.safepoint_synchronize_end true s =
      SuspendibleThreadSet.desynchronize s :=
  ⟨rfl, rfl, rfl, rfl⟩

/-- C4: `complete_loaded_archive_space` called with a region not fully
contained in the old generation's currently-used extent fails with the
fatal ArchiveRegionViolation and leaves the heap state unchanged; with a
contained region it succeeds and records the region as permanently
occupied with the old generation's allocator. -/
theorem archive_region_guard (s : SerialHeapState) (r : MemRegion) :
    (s.oldGen.used_region.contains r = false →
      SerialHeap.complete_loaded_archive_space s r =
        (some GCError.archiveRegionViolation, s)) ∧
    (s.oldGen.used_region.contains r = true →
      (SerialHeap.complete_loaded_archive_space s r).1 = none ∧
      (SerialHeap.complete_loaded_archive_space s r).2.oldGen.archiveRegions =
        s.oldGen.archiveRegions ++ [r] ∧
      (SerialHeap.complete_loaded_archive_space s r).2.youngGen = s.youngGen) := by
  constructor <;> intro h <;>
    simp [SerialHeap.complete_loaded_archive_space, h,
      TenuredGeneration.mark_archive]

/-- Witness for C4 at concrete inputs: a region outside the sample old
generation's used extent is rejected with the state unchanged, and a
contained region is recorded. -/
theorem archive_region_guard_witness :
    (SerialHeap.complete_loaded_archive_space sampleHeap ⟨0, 10⟩ =
      (some GCError.archiveRegionViolation, sampleHeap)) ∧
    (SerialHeap.complete_loaded_archive_space sampleHeap ⟨1000, 16⟩).1 =
      none :=
  ⟨(archive_region_guard sampleHeap ⟨0, 10⟩).1 (by decide),
   ((archive_region_guard sampleHeap ⟨1000, 16⟩).2 (by decide)).1⟩

/-- C5: `allocate_loaded_archive_space` performs the old-generation
allocation strictly between acquiring and releasing the heap-wide
allocation lock, never touches the young generation, returns a null
address exactly when the old generation lacks contiguous free space of the
requested size, and on success hands out the old generation's next free
address. -/
theorem archive_allocation_old_only (s : SerialHeapState) (w : Nat) :
    (SerialHeap.allocate_loaded_archive_space s w).2.2 =
      [HeapEvent.acquire_heap_lock, HeapEvent.old_gen_allocate w,
       HeapEvent.release_heap_lock] ∧
    (SerialHeap.allocate_loaded_archive_space s w).2.1.youngGen =
      s.youngGen ∧
    ((SerialHeap.allocate_loaded_archive_space s w).1 = none ↔
      s.oldGen.capacityWords < s.oldGen.usedWords + w) ∧
    ((SerialHeap.allocate_loaded_archive_space s w).1 ≠ none →
      (SerialHeap.allocate_loaded_archive_space s w).1 =
        some (s.oldGen.base + s.oldGen.usedWords) ∧
      (SerialHeap.allocate_loaded_archive_space s w).2.1.oldGen.usedWords =
        s.oldGen.usedWords + w) := by
  refine ⟨rfl, rfl, ?_, ?_⟩ <;>
    simp only [SerialHeap.allocate_loaded_archive_space,
      TenuredGeneration.allocate] <;>
    split <;>
    simp_all

/-- Witness for C5 at concrete inputs: allocating 8 words from the sample
heap succeeds at the old generation's next free address and grows its used
extent by 8 words. -/
theorem archive_allocation_witness :
    (SerialHeap.allocate_loaded_archive_space sampleHeap 8).1 =
      some (sampleHeap.oldGen.base + sampleHeap.oldGen.usedWords) ∧
    (SerialHeap.allocate_loaded_archive_space sampleHeap 8).2.1.oldGen.usedWords =
      sampleHeap.oldGen.usedWords + 8 :=
  (archive_allocation_old_only sampleHeap 8).2.2.2 (by decide)

/-- C7: every pin increments and every unpin decrements the global
critical-section counter; while the counter is positive a collection pause
cannot start; and a pin issued while a collection is in progress blocks
(does not proceed) rather than racing it. -/
theorem gclocker_pin_gate (g : GCLockerState) (thread obj : Nat) :
    (g.gcActive = false →
      SerialHeap.pin_object thread obj g =
        some { g with criticalCount := g.criticalCount + 1 }) ∧
    (g.gcActive = true → SerialHeap.pin_object thread obj g = none) ∧
    (0 < g.criticalCount →
      SerialHeap.unpin_object thread obj g =
        some { g with criticalCount := g.criticalCount - 1 }) ∧
    (0 < g.criticalCount →
      GCLockerStep g GCLockerOp.start_collection = none) := by
  refine ⟨?_, ?_, ?_, ?_⟩ <;> intro h <;>
    simp [SerialHeap.pin_object, SerialHeap.unpin_object, GCLockerStep, h] <;>
    omega

/-- Witness for C7 at concrete states: pinning from an idle state with no
active collection increments the counter to one, pinning during an active
collection blocks, unpinning decrements back, and with one pin outstanding
a collection pause cannot start. -/
theorem gclocker_pin_gate_witness :
    SerialHeap.pin_object 1 2 ⟨0, false⟩ = some ⟨1, false⟩ ∧
    SerialHeap.pin_object 1 2 ⟨0, true⟩ = none ∧
    SerialHeap.unpin_object 1 2 ⟨1, false⟩ = some ⟨0, false⟩ ∧
    GCLockerStep ⟨1, false⟩ GCLockerOp.start_collection = none :=
  ⟨(gclocker_pin_gate ⟨0, false⟩ 1 2).1 rfl,
   (gclocker_pin_gate ⟨0, true⟩ 1 2).2.1 rfl,
   (gclocker_pin_gate ⟨1, false⟩ 1 2).2.2.1 (by decide),
   (gclocker_pin_gate ⟨1, false⟩ 1 2).2.2.2 (by decide)⟩

/-- C2: in every invocation of `young_process_roots` the
generation-spanning root enumeration (thread, class-loader and
compiled-code roots, the latter with relocation fix-up requested) forms a
complete prefix of the visit trace before any old-generation visitor
event; every application of the old-generation closure hits exactly one
recorded old-to-young cross-generation entry, never an unrecorded
old-generation slot; and every code-blob visit requests relocation
fix-up. -/
theorem young_roots_order (s : SerialHeapState) (rs : RootSet) :
    (∃ k,
      (∀ e ∈ (SerialHeap.young_process_roots s rs).take k,
        e.isOldToYoung = false) ∧
      (SerialHeap.young_process_roots s rs).drop k =
        s.oldGen.crossGenEntries.map
          (RootScanEvent.oldToYoungEntry ClosureId.oldGenClosure)) ∧
    (∀ e ∈ SerialHeap.young_process_roots s rs,
      e.closureOf = ClosureId.oldGenClosure →
      ∃ slot ∈ s.oldGen.crossGenEntries,
        e = RootScanEvent.oldToYoungEntry ClosureId.oldGenClosure slot) ∧
    (∀ c b r, RootScanEvent.codeBlobRoot c b r ∈
      SerialHeap.young_process_roots s rs → b = true) := by
  refine ⟨⟨(process_roots rs ClosureId.rootClosure ClosureId.cldClosure
      ClosureId.rootClosure true).length, ?_, ?_⟩, ?_, ?_⟩
  · intro e he
    rw [SerialHeap.young_process_roots, List.take_left] at he
    simp only [process_roots, List.mem_append, List.mem_map] at he
    rcases he with (⟨r, _, rfl⟩ | ⟨r, _, rfl⟩) | ⟨r, _, rfl⟩ <;> rfl
  · rw [SerialHeap.young_process_roots, List.drop_left]
    rfl
  · intro e he hc
    simp only [SerialHeap.young_process_roots, process_roots,
      TenuredGeneration.younger_refs_iterate, List.mem_append,
      List.mem_map] at he
    rcases he with ((⟨r, _, rfl⟩ | ⟨r, _, rfl⟩) | ⟨r, _, rfl⟩) |
      ⟨slot, hslot, rfl⟩ <;> simp only [RootScanEvent.closureOf] at hc
    · exact absurd hc (by simp)
    · exact absurd hc (by simp)
    · exact absurd hc (by simp)
    · exact ⟨slot, hslot, rfl⟩
  · intro c b r hmem
    simp only [SerialHeap.young_process_roots, process_roots,
      TenuredGeneration.younger_refs_iterate, List.mem_append,
      List.mem_map] at hmem
    rcases hmem with ((⟨x, _, hx⟩ | ⟨x, _, hx⟩) | ⟨x, _, hx⟩) | ⟨x, _, hx⟩
    · exact absurd hx (by simp)
    · exact absurd hx (by simp)
    · injection hx with h1 h2 h3
      exact h2.symm
    · exact absurd hx (by simp)

/-- Witness for C2 at concrete inputs: the old-generation closure event for
the sample heap's single recorded cross-generation slot is accounted for by
a recorded entry. -/
theorem young_roots_order_witness :
    ∃ slot ∈ sampleHeap.oldGen.crossGenEntries,
      RootScanEvent.oldToYoungEntry ClosureId.oldGenClosure 5 =
        RootScanEvent.oldToYoungEntry ClosureId.oldGenClosure slot :=
  (young_roots_order sampleHeap sampleRoots).2.1
    (RootScanEvent.oldToYoungEntry ClosureId.oldGenClosure 5)
    (by decide) rfl

end SerialGC
